import Mathlib

/-!
Verification of the `scale` package (src/scale.go): a Cloud Run rescaler
performing a single read-modify-write against the Run admin API.

The Go code is straight-line with external effects (credential acquisition,
metadata lookup, HTTP GET/PUT, JSON decode).  We embed it as a pure function
over an effect oracle `Env` that stipulates the outcome of each external
call, and a context `Ctx` carrying the cancellation flag.  The result
records the returned error (or success, or a runtime fault from a nil
dereference / nil-map write), the URL of the attempted GET, and the service
value serialized as the PUT body (when a PUT was attempted).
-/

namespace RunScaler

/-- Go map from string to string, as read semantics: a missing key reads as
the zero value `""`.  We model the map extensionally as a total function. -/
def AnnMap : Type := String → String

/-- `m[k]` on a possibly-nil Go map: a nil map reads as empty. -/
def annLookup (m : Option AnnMap) (k : String) : String :=
  match m with
  | none => ""
  | some f => f k

/-- `m[k] = v` on a non-nil Go map. -/
def annSet (m : AnnMap) (k v : String) : AnnMap :=
  fun k' => if k' = k then v else m k'

/-- run.ObjectMeta: the fields the code touches (`Name`, the string map of
metadata key/values), plus `rest` standing for every other field, carried
through untouched.  The map is `Option` because a Go map field decoded from
JSON lacking that key is nil. -/
structure ObjectMeta where
  name : String
  anns : Option AnnMap
  rest : String

/-- run.RevisionTemplate: nested `Metadata` pointer plus all other fields. -/
structure RevisionTemplate where
  metadata : Option ObjectMeta
  rest : String

/-- run.ServiceSpec: nested `Template` pointer plus all other fields. -/
structure ServiceSpec where
  template : Option RevisionTemplate
  rest : String

/-- run.Service: `Metadata` and `Spec` pointers plus all other fields. -/
structure Service where
  metadata : Option ObjectMeta
  spec : Option ServiceSpec
  rest : String

/-- Error taxonomy of the operation; `updateRejected` carries the non-200
status code from the PUT response (`fmt.Errorf("cloud Run API response code: %d", ...)`). -/
inductive ScaleErr where
  | credential
  | identity
  | requestBuild
  | transport
  | decode
  | updateRejected (status : Nat)
deriving DecidableEq, Repr

/-- Execution context: only the cancellation state is observable here. -/
structure Ctx where
  cancelled : Bool

/-- Effect oracle: the outcome of every external call `Scale` makes, in
program order.  `kService` is `os.Getenv("K_SERVICE")` (never fails). -/
structure Env where
  defaultClient : Except ScaleErr Unit
  projectID : Except ScaleErr String
  kService : String
  newGetRequest : Except ScaleErr Unit
  doGet : Except ScaleErr Unit
  decodeSvc : Except ScaleErr Service
  marshalSvc : Except ScaleErr Unit
  newPutRequest : Except ScaleErr Unit
  doPut : Except ScaleErr Nat

/-- The admin endpoint URL built by `fmt.Sprintf` in the source. -/
def runAdminURL (project service : String) : String :=
  "https://us-central1-run.googleapis.com/apis/serving.knative.dev/v1/namespaces/"
    ++ project ++ "/services/" ++ service

/-- Annotation keys used by the source. -/
def minScaleKey : String := "autoscaling.knative.dev/minScale"

def maxScaleKey : String := "autoscaling.knative.dev/maxScale"

def launchStageKey : String := "run.googleapis.com/launch-stage"

/-- Result of one invocation: `outcome` is `some (.ok ())` for a nil error
return, `some (.error e)` for an error return, and `none` for a runtime
fault (nil pointer dereference or assignment into a nil map); `getURL` is
the URL of the GET if one was attempted; `putBody` is the service value
marshalled into the PUT body if a PUT was attempted. -/
structure ScaleResult where
  outcome : Option (Except ScaleErr Unit)
  getURL : Option String
  putBody : Option Service

/-- Shallow embedding of `Scale(ctx, min, max)` from src/scale.go.  Each
`match` on an `env` field is the corresponding `if err != nil { return err }`
in the source; `match` on `none` components of the decoded service models the
nil dereferences / nil-map writes the source performs without a guard. -/
def Scale (ctx : Ctx) (min max : Int) (env : Env) : ScaleResult :=
  match env.defaultClient with
  | .error e => ⟨some (.error e), none, none⟩
  | .ok _ =>
  match env.projectID with
  | .error e => ⟨some (.error e), none, none⟩
  | .ok project =>
  let url := runAdminURL project env.kService
  match env.newGetRequest with
  | .error e => ⟨some (.error e), none, none⟩
  | .ok _ =>
  -- httpClient.Do(req): the GET is attempted; a cancelled context aborts it
  match (if ctx.cancelled then (Except.error ScaleErr.transport : Except ScaleErr Unit) else env.doGet) with
  | .error e => ⟨some (.error e), some url, none⟩
  | .ok _ =>
  match env.decodeSvc with
  | .error e => ⟨some (.error e), some url, none⟩
  | .ok svc =>
  let newMin := toString min
  let newMax := toString max
  -- noop check: svc.Spec.Template.Metadata.Annotations[...] dereferences the chain
  match svc.spec with
  | none => ⟨none, some url, none⟩
  | some sp =>
  match sp.template with
  | none => ⟨none, some url, none⟩
  | some tpl =>
  match tpl.metadata with
  | none => ⟨none, some url, none⟩
  | some tmd =>
  if annLookup tmd.anns minScaleKey == newMin && annLookup tmd.anns maxScaleKey == newMax then
    ⟨some (.ok ()), some url, none⟩
  else
    -- svc.Metadata.Annotations["run.googleapis.com/launch-stage"] = "BETA"
    match svc.metadata with
    | none => ⟨none, some url, none⟩
    | some md =>
    match md.anns with
    | none => ⟨none, some url, none⟩
    | some topAnns =>
    -- template metadata writes: Name = "", min/max scale keys
    match tmd.anns with
    | none => ⟨none, some url, none⟩
    | some ta =>
    let svc' : Service :=
      { svc with
        metadata := some { md with anns := some (annSet topAnns launchStageKey "BETA") }
        spec := some { sp with template := some { tpl with
          metadata := some { tmd with
            name := ""
            anns := some (annSet (annSet ta minScaleKey newMin) maxScaleKey newMax) } } } }
    match env.marshalSvc with
    | .error e => ⟨some (.error e), some url, none⟩
    | .ok _ =>
    match env.newPutRequest with
    | .error e => ⟨some (.error e), some url, none⟩
    | .ok _ =>
    match (if ctx.cancelled then (Except.error ScaleErr.transport : Except ScaleErr Nat) else env.doPut) with
    | .error e => ⟨some (.error e), some url, some svc'⟩
    | .ok status =>
      if status == 200 then ⟨some (.ok ()), some url, some svc'⟩
      else ⟨some (.error (.updateRejected status)), some url, some svc'⟩

/-- Response written by the HTTP adapter: a status code and a body. -/
structure HTTPResponse where
  status : Nat
  body : String
deriving DecidableEq, Repr

/-- Shallow embedding of the closure returned by `NewHandler(min, max)` from
src/scale.go: it calls `Scale` with `context.Background()` (never cancelled),
writes 500 on error and 200 on success, with no body.  `none` when `Scale`
faults (the panic propagates before any header is written). -/
def NewHandler (min max : Int) (env : Env) : Option HTTPResponse :=
  match (Scale ⟨false⟩ min max env).outcome with
  | none => none
  | some (.ok _) => some ⟨200, ""⟩
  | some (.error _) => some ⟨500, ""⟩

/-- Shallow embedding of the closure returned by `NewEndpoint(min, max)`:
it returns `(nil, Scale(ctx, min, max))`, i.e. the error unchanged. -/
def NewEndpoint (min max : Int) (ctx : Ctx) (env : Env) : Option Unit × Option (Except ScaleErr Unit) :=
  (none, (Scale ctx min max env).outcome)

/-! Statement-side accessors and small lemmas. -/

/-- The template metadata of a service, following the pointer chain. -/
def tmplMeta (s : Service) : Option ObjectMeta :=
  (s.spec.bind fun sp => sp.template).bind fun t => t.metadata

/-- Read a top-level metadata map entry (missing links read as ""). -/
def topAnn (s : Service) (k : String) : String :=
  match s.metadata with
  | none => ""
  | some md => annLookup md.anns k

/-- Read a template metadata map entry (missing links read as ""). -/
def tmplAnn (s : Service) (k : String) : String :=
  match tmplMeta s with
  | none => ""
  | some m => annLookup m.anns k

/-- The template name (missing links read as ""). -/
def tmplName (s : Service) : String :=
  match tmplMeta s with
  | none => ""
  | some m => m.name

/-- The decoded service is safe to mutate: both the top-level metadata map
and the template metadata map exist (non-nil pointers, non-nil maps). -/
def wellFormedB (s : Service) : Bool :=
  (match s.metadata with | some md => md.anns.isSome | none => false) &&
  (match tmplMeta s with | some m => m.anns.isSome | none => false)

theorem annLookup_annSet_same (m : AnnMap) (k v : String) :
    annLookup (some (annSet m k v)) k = v := by
  simp [annLookup, annSet]

theorem annLookup_annSet_other (m : AnnMap) (k v k' : String) (h : k' ≠ k) :
    annLookup (some (annSet m k v)) k' = annLookup (some m) k' := by
  simp [annLookup, annSet, h]

theorem keys_distinct :
    minScaleKey ≠ maxScaleKey ∧ minScaleKey ≠ launchStageKey ∧ maxScaleKey ≠ launchStageKey := by
  refine ⟨?_, ?_, ?_⟩ <;> decide

/-! Concrete fixtures for witnesses: a fully-populated service description
whose current scaling values are min "0", max "1000", and an oracle where
every external call succeeds. -/

/-- Empty Go map (every key reads as ""). -/
def emptyAnns : AnnMap := fun _ => ""

/-- Template metadata map of the fixture: minScale "0", maxScale "1000". -/
def taA : AnnMap := annSet (annSet emptyAnns minScaleKey "0") maxScaleKey "1000"

/-- Template metadata of the fixture. -/
def tmdA : ObjectMeta := ⟨"rev-001", some taA, "tmd-extra"⟩

/-- The fixture service description, fully populated. -/
def svcA : Service :=
  ⟨some ⟨"mysvc", some emptyAnns, "md-extra"⟩,
   some ⟨some ⟨some tmdA, "tpl-extra"⟩, "sp-extra"⟩,
   "svc-extra"⟩

/-- Oracle in which every external call succeeds, the GET decodes to `svcA`,
and the PUT returns status 200. -/
def envA : Env :=
  ⟨.ok (), .ok "proj", "mysvc", .ok (), .ok (), .ok svcA, .ok (), .ok (), .ok 200⟩

/-! Claims. -/

/-- Claim C1: when the template minScale and maxScale map entries are
string-equal to `strconv.Itoa(min)` and `strconv.Itoa(max)`, `Scale`
returns success right after the GET and attempts no PUT (no mutated body
is ever sent). -/
theorem scale_noop_when_equal (ctx : Ctx) (min max : Int) (env : Env) (p : String)
    (svc : Service) (sp : ServiceSpec) (tpl : RevisionTemplate) (tmd : ObjectMeta)
    (hc : env.defaultClient = .ok ()) (hp : env.projectID = .ok p)
    (hg : env.newGetRequest = .ok ()) (hx : ctx.cancelled = false)
    (hdo : env.doGet = .ok ()) (hdec : env.decodeSvc = .ok svc)
    (h1 : svc.spec = some sp) (h2 : sp.template = some tpl) (h3 : tpl.metadata = some tmd)
    (hmin : annLookup tmd.anns minScaleKey = toString min)
    (hmax : annLookup tmd.anns maxScaleKey = toString max) :
    (Scale ctx min max env).outcome = some (.ok ()) ∧
    (Scale ctx min max env).putBody = none := by
  simp [Scale, hc, hp, hg, hx, hdo, hdec, h1, h2, h3, hmin, hmax]

/-- Claim C1 witness: requesting min 0, max 1000 against the fixture (whose
entries are "0" and "1000") is a no-op success without a PUT. -/
theorem scale_noop_when_equal_witness :
    annLookup tmdA.anns minScaleKey = toString (0 : Int) ∧
    annLookup tmdA.anns maxScaleKey = toString (1000 : Int) ∧
    ((Scale ⟨false⟩ 0 1000 envA).outcome = some (.ok ()) ∧
     (Scale ⟨false⟩ 0 1000 envA).putBody = none) :=
  ⟨by decide, by decide,
   scale_noop_when_equal ⟨false⟩ 0 1000 envA "proj" svcA _ _ tmdA
     rfl rfl rfl rfl rfl rfl rfl rfl rfl (by decide) (by decide)⟩

/-- Claim C2: when the current minScale or maxScale entry differs from the
requested string forms, the body serialized into the PUT has the top-level
launch-stage entry set to "BETA", the template name cleared to "", the
template minScale/maxScale entries set to `strconv.Itoa` of the request, and
every other field of the fetched description carried over unchanged. -/
theorem scale_put_mutation (ctx : Ctx) (min max : Int) (env : Env) (p : String)
    (svc : Service) (sp : ServiceSpec) (tpl : RevisionTemplate) (tmd : ObjectMeta)
    (md : ObjectMeta) (topAnns ta : AnnMap)
    (hc : env.defaultClient = .ok ()) (hp : env.projectID = .ok p)
    (hg : env.newGetRequest = .ok ()) (hx : ctx.cancelled = false)
    (hdo : env.doGet = .ok ()) (hdec : env.decodeSvc = .ok svc)
    (h1 : svc.spec = some sp) (h2 : sp.template = some tpl) (h3 : tpl.metadata = some tmd)
    (hm : svc.metadata = some md) (hma : md.anns = some topAnns) (hta : tmd.anns = some ta)
    (hdiff : annLookup tmd.anns minScaleKey ≠ toString min ∨
             annLookup tmd.anns maxScaleKey ≠ toString max)
    (hmar : env.marshalSvc = .ok ()) (hpr : env.newPutRequest = .ok ()) :
    ∃ body, (Scale ctx min max env).putBody = some body ∧
      topAnn body launchStageKey = "BETA" ∧
      tmplName body = "" ∧
      tmplAnn body minScaleKey = toString min ∧
      tmplAnn body maxScaleKey = toString max ∧
      (∀ k, k ≠ launchStageKey → topAnn body k = topAnn svc k) ∧
      (∀ k, k ≠ minScaleKey → k ≠ maxScaleKey → tmplAnn body k = tmplAnn svc k) ∧
      body.metadata.map ObjectMeta.name = svc.metadata.map ObjectMeta.name ∧
      body.metadata.map ObjectMeta.rest = svc.metadata.map ObjectMeta.rest ∧
      body.spec.map ServiceSpec.rest = svc.spec.map ServiceSpec.rest ∧
      (body.spec.bind ServiceSpec.template).map RevisionTemplate.rest
        = (svc.spec.bind ServiceSpec.template).map RevisionTemplate.rest ∧
      (tmplMeta body).map ObjectMeta.rest = (tmplMeta svc).map ObjectMeta.rest ∧
      body.rest = svc.rest := by
  have hcond : (annLookup tmd.anns minScaleKey == toString min &&
      annLookup tmd.anns maxScaleKey == toString max) = false := by
    rcases hdiff with h | h <;> simp [h]
  rw [hta] at hcond
  have hmm : minScaleKey ≠ maxScaleKey := keys_distinct.1
  refine ⟨{ svc with
      metadata := some { md with anns := some (annSet topAnns launchStageKey "BETA") }
      spec := some { sp with template := some { tpl with
        metadata := some { tmd with
          name := ""
          anns := some (annSet (annSet ta minScaleKey (toString min))
            maxScaleKey (toString max)) } } } },
    ?_, ?_, ?_, ?_, ?_, ?_, ?_, ?_, ?_, ?_, ?_, ?_, ?_⟩
  · simp only [Scale, hc, hp, hg, hx, hdo, hdec, h1, h2, h3, hm, hma, hta, hmar, hpr,
      hcond, Bool.false_eq_true, if_false]
    rcases henv : env.doPut with e | s
    · rfl
    · by_cases hs : s == 200 <;> simp [hs]
  · simp [topAnn, annLookup_annSet_same]
  · simp [tmplName, tmplMeta, annLookup_annSet_same]
  · simp [tmplAnn, tmplMeta, annLookup_annSet_other _ _ _ _ hmm, annLookup_annSet_same]
  · simp [tmplAnn, tmplMeta, annLookup_annSet_same]
  · intro k hk
    simp [topAnn, hm, hma, annLookup_annSet_other _ _ _ _ hk]
  · intro k hk1 hk2
    simp [tmplAnn, tmplMeta, h1, h2, h3, hta,
      annLookup_annSet_other _ _ _ _ hk2, annLookup_annSet_other _ _ _ _ hk1]
  · simp [hm]
  · simp [hm]
  · simp [h1]
  · simp [h1, h2]
  · simp [tmplMeta, h1, h2, h3]
  · simp

/-- Claim C2 witness: requesting min 100, max 1000 against the fixture
(current min "0") produces a PUT body with the required mutations. -/
theorem scale_put_mutation_witness :
    annLookup tmdA.anns minScaleKey ≠ toString (100 : Int) ∧
    (∃ body, (Scale ⟨false⟩ 100 1000 envA).putBody = some body ∧
      topAnn body launchStageKey = "BETA" ∧
      tmplName body = "" ∧
      tmplAnn body minScaleKey = toString (100 : Int) ∧
      tmplAnn body maxScaleKey = toString (1000 : Int) ∧
      (∀ k, k ≠ launchStageKey → topAnn body k = topAnn svcA k) ∧
      (∀ k, k ≠ minScaleKey → k ≠ maxScaleKey → tmplAnn body k = tmplAnn svcA k) ∧
      body.metadata.map ObjectMeta.name = svcA.metadata.map ObjectMeta.name ∧
      body.metadata.map ObjectMeta.rest = svcA.metadata.map ObjectMeta.rest ∧
      body.spec.map ServiceSpec.rest = svcA.spec.map ServiceSpec.rest ∧
      (body.spec.bind ServiceSpec.template).map RevisionTemplate.rest
        = (svcA.spec.bind ServiceSpec.template).map RevisionTemplate.rest ∧
      (tmplMeta body).map ObjectMeta.rest = (tmplMeta svcA).map ObjectMeta.rest ∧
      body.rest = svcA.rest) :=
  ⟨by decide,
   scale_put_mutation ⟨false⟩ 100 1000 envA "proj" svcA _ _ tmdA _ emptyAnns taA
     rfl rfl rfl rfl rfl rfl rfl rfl rfl rfl rfl rfl (.inl (by decide)) rfl rfl⟩

/-- Claim C3: on the mutation path, `Scale` returns success iff the PUT
response status is 200; any other status yields the error carrying that
status code.  The oracle's single `doPut` outcome is consulted exactly once:
there is no retry. -/
theorem scale_put_status (ctx : Ctx) (min max : Int) (env : Env) (p : String)
    (svc : Service) (sp : ServiceSpec) (tpl : RevisionTemplate) (tmd : ObjectMeta)
    (md : ObjectMeta) (topAnns ta : AnnMap) (s : Nat)
    (hc : env.defaultClient = .ok ()) (hp : env.projectID = .ok p)
    (hg : env.newGetRequest = .ok ()) (hx : ctx.cancelled = false)
    (hdo : env.doGet = .ok ()) (hdec : env.decodeSvc = .ok svc)
    (h1 : svc.spec = some sp) (h2 : sp.template = some tpl) (h3 : tpl.metadata = some tmd)
    (hm : svc.metadata = some md) (hma : md.anns = some topAnns) (hta : tmd.anns = some ta)
    (hdiff : annLookup tmd.anns minScaleKey ≠ toString min ∨
             annLookup tmd.anns maxScaleKey ≠ toString max)
    (hmar : env.marshalSvc = .ok ()) (hpr : env.newPutRequest = .ok ())
    (hput : env.doPut = .ok s) :
    ((Scale ctx min max env).outcome = some (.ok ()) ↔ s = 200) ∧
    (s ≠ 200 → (Scale ctx min max env).outcome = some (.error (.updateRejected s))) := by
  have hcond : (annLookup tmd.anns minScaleKey == toString min &&
      annLookup tmd.anns maxScaleKey == toString max) = false := by
    rcases hdiff with h | h <;> simp [h]
  rw [hta] at hcond
  constructor
  · simp only [Scale, hc, hp, hg, hx, hdo, hdec, h1, h2, h3, hm, hma, hta, hmar, hpr, hput,
      hcond, Bool.false_eq_true, if_false]
    by_cases hs : s = 200 <;> simp [hs]
  · intro hs
    simp only [Scale, hc, hp, hg, hx, hdo, hdec, h1, h2, h3, hm, hma, hta, hmar, hpr, hput,
      hcond, Bool.false_eq_true, if_false]
    simp [hs]

/-- Oracle identical to `envA` except the PUT comes back 403. -/
def envB : Env :=
  ⟨.ok (), .ok "proj", "mysvc", .ok (), .ok (), .ok svcA, .ok (), .ok (), .ok 403⟩

/-- Claim C3 witness: a PUT response status 403 on the mutation path yields
the error carrying 403. -/
theorem scale_put_status_witness :
    envB.doPut = .ok 403 ∧
    (((Scale ⟨false⟩ 100 1000 envB).outcome = some (.ok ()) ↔ (403 : Nat) = 200) ∧
     ((403 : Nat) ≠ 200 →
      (Scale ⟨false⟩ 100 1000 envB).outcome = some (.error (.updateRejected 403)))) :=
  ⟨rfl,
   scale_put_status ⟨false⟩ 100 1000 envB "proj" svcA _ _ tmdA _ emptyAnns taA 403
     rfl rfl rfl rfl rfl rfl rfl rfl rfl rfl rfl rfl (.inl (by decide)) rfl rfl rfl⟩

/-- The first error among the steps preceding the PUT, in program order:
credential acquisition, project-identity resolution, GET request
construction, GET transport (a cancelled context aborts the GET), JSON
decode of the GET response. -/
def preErr (ctx : Ctx) (env : Env) : Option ScaleErr :=
  match env.defaultClient with
  | .error e => some e
  | .ok _ =>
  match env.projectID with
  | .error e => some e
  | .ok _ =>
  match env.newGetRequest with
  | .error e => some e
  | .ok _ =>
  match (if ctx.cancelled then (Except.error ScaleErr.transport : Except ScaleErr Unit) else env.doGet) with
  | .error e => some e
  | .ok _ =>
  match env.decodeSvc with
  | .error e => some e
  | .ok _ => none

/-- Claim C4: any failure at a stage before the PUT is returned immediately
as `Scale`'s result, and no PUT is attempted. -/
theorem scale_pre_put_error (ctx : Ctx) (min max : Int) (env : Env) (e : ScaleErr)
    (h : preErr ctx env = some e) :
    (Scale ctx min max env).outcome = some (.error e) ∧
    (Scale ctx min max env).putBody = none := by
  unfold preErr at h
  unfold Scale
  rcases h1 : env.defaultClient with e1 | u
  · rw [h1] at h; rw [show e1 = e by simpa using h]; exact ⟨rfl, rfl⟩
  · rw [h1] at h
    rcases h2 : env.projectID with e2 | p
    · rw [h2] at h; rw [show e2 = e by simpa using h]; exact ⟨rfl, rfl⟩
    · rw [h2] at h
      rcases h3 : env.newGetRequest with e3 | u3
      · rw [h3] at h; rw [show e3 = e by simpa using h]; exact ⟨rfl, rfl⟩
      · rw [h3] at h
        rcases h4 : (if ctx.cancelled then (Except.error ScaleErr.transport : Except ScaleErr Unit) else env.doGet) with e4 | u4
        · rw [h4] at h; rw [show e4 = e by simpa using h]; exact ⟨rfl, rfl⟩
        · rw [h4] at h
          rcases h5 : env.decodeSvc with e5 | svc
          · rw [h5] at h; rw [show e5 = e by simpa using h]; exact ⟨rfl, rfl⟩
          · rw [h5] at h; simp at h

/-- Oracle whose decode step fails. -/
def envC : Env :=
  ⟨.ok (), .ok "proj", "mysvc", .ok (), .ok (), .error .decode, .ok (), .ok (), .ok 200⟩

/-- Claim C4 witness: a JSON decode failure is returned as the result, and
no PUT is attempted. -/
theorem scale_pre_put_error_witness :
    preErr ⟨false⟩ envC = some .decode ∧
    ((Scale ⟨false⟩ 0 1000 envC).outcome = some (.error .decode) ∧
     (Scale ⟨false⟩ 0 1000 envC).putBody = none) :=
  ⟨rfl, scale_pre_put_error ⟨false⟩ 0 1000 envC .decode rfl⟩

/-- Service identical to `svcA` except the current minScale entry is "00":
numerically equal to 0 but not string-equal to `strconv.Itoa(0) = "0"`. -/
def svcZ : Service :=
  ⟨some ⟨"mysvc", some emptyAnns, "md-extra"⟩,
   some ⟨some ⟨some ⟨"rev-001", some (annSet (annSet emptyAnns minScaleKey "00") maxScaleKey "1000"), "tmd-extra"⟩, "tpl-extra"⟩, "sp-extra"⟩,
   "svc-extra"⟩

/-- Oracle whose GET decodes to `svcZ`, everything else succeeding. -/
def envZ : Env :=
  ⟨.ok (), .ok "proj", "mysvc", .ok (), .ok (), .ok svcZ, .ok (), .ok (), .ok 200⟩

/-- Claim C5: the idempotence check is a string comparison, not an integer
comparison: with current minScale "00" and requested min 0 (numerically
equal, not string-equal) `Scale` does not take the no-op path — it mutates
and attempts the PUT, setting minScale to "0". -/
theorem scale_string_compare :
    (Scale ⟨false⟩ 0 1000 envZ).putBody.isSome = true ∧
    ((Scale ⟨false⟩ 0 1000 envZ).putBody.map (fun b => tmplAnn b minScaleKey)) = some "0" ∧
    (Scale ⟨false⟩ 0 1000 envZ).outcome = some (.ok ()) := by
  refine ⟨by decide, by decide, rfl⟩

/-- Claim C6: a context cancelled before the GET completes makes `Scale`
return the transport error, with no PUT attempted. -/
theorem scale_cancelled (ctx : Ctx) (min max : Int) (env : Env)
    (hc : env.defaultClient = .ok ()) (hp : ∃ p, env.projectID = .ok p)
    (hg : env.newGetRequest = .ok ()) (hx : ctx.cancelled = true) :
    (Scale ctx min max env).outcome = some (.error .transport) ∧
    (Scale ctx min max env).putBody = none := by
  obtain ⟨p, hp⟩ := hp
  simp [Scale, hc, hp, hg, hx]

/-- Claim C6 witness: cancelling the context against the all-success oracle
yields the transport error and no PUT. -/
theorem scale_cancelled_witness :
    envA.defaultClient = .ok () ∧
    ((Scale ⟨true⟩ 0 1000 envA).outcome = some (.error .transport) ∧
     (Scale ⟨true⟩ 0 1000 envA).putBody = none) :=
  ⟨rfl, scale_cancelled ⟨true⟩ 0 1000 envA rfl ⟨"proj", rfl⟩ rfl rfl⟩

/-- Claim C7: the HTTP adapter writes status 200 (empty body) whenever the
underlying `Scale` call succeeds and status 500 (empty body) whenever it
returns any error, whatever the error and whichever path (no-op or
mutation) produced the outcome. -/
theorem handler_status (min max : Int) (env : Env) :
    ((Scale ⟨false⟩ min max env).outcome = some (.ok ()) →
      NewHandler min max env = some ⟨200, ""⟩) ∧
    (∀ e, (Scale ⟨false⟩ min max env).outcome = some (.error e) →
      NewHandler min max env = some ⟨500, ""⟩) := by
  constructor
  · intro h; simp [NewHandler, h]
  · intro e h; simp [NewHandler, h]

/-- Claim C7 witness: on the no-op success fixture the adapter writes 200
with an empty body. -/
theorem handler_status_witness :
    (Scale ⟨false⟩ 0 1000 envA).outcome = some (.ok ()) ∧
    NewHandler 0 1000 envA = some ⟨200, ""⟩ :=
  ⟨rfl, (handler_status 0 1000 envA).1 rfl⟩

/-- Claim C8: `Scale` performs no local validation of min and max: for every
pair of integers — in particular min greater than max — a run whose external
calls all succeed completes with success and an attempted PUT; the integers
are only converted to decimal strings, never inspected or rejected
locally. -/
theorem scale_no_local_validation (ctx : Ctx) (min max : Int) (env : Env) (p : String)
    (svc : Service) (sp : ServiceSpec) (tpl : RevisionTemplate) (tmd : ObjectMeta)
    (md : ObjectMeta) (topAnns ta : AnnMap)
    (hc : env.defaultClient = .ok ()) (hp : env.projectID = .ok p)
    (hg : env.newGetRequest = .ok ()) (hx : ctx.cancelled = false)
    (hdo : env.doGet = .ok ()) (hdec : env.decodeSvc = .ok svc)
    (h1 : svc.spec = some sp) (h2 : sp.template = some tpl) (h3 : tpl.metadata = some tmd)
    (hm : svc.metadata = some md) (hma : md.anns = some topAnns) (hta : tmd.anns = some ta)
    (hdiff : annLookup tmd.anns minScaleKey ≠ toString min ∨
             annLookup tmd.anns maxScaleKey ≠ toString max)
    (hmar : env.marshalSvc = .ok ()) (hpr : env.newPutRequest = .ok ())
    (hput : env.doPut = .ok 200) :
    (Scale ctx min max env).outcome = some (.ok ()) ∧
    (Scale ctx min max env).putBody.isSome = true := by
  have hcond : (annLookup tmd.anns minScaleKey == toString min &&
      annLookup tmd.anns maxScaleKey == toString max) = false := by
    rcases hdiff with h | h <;> simp [h]
  rw [hta] at hcond
  simp [Scale, hc, hp, hg, hx, hdo, hdec, h1, h2, h3, hm, hma, hta, hmar, hpr, hput, hcond]

/-- Claim C8 witness: min 5 greater than max 2 is not rejected — the run
succeeds and a PUT is attempted. -/
theorem scale_no_local_validation_witness :
    (5 : Int) > 2 ∧
    annLookup tmdA.anns minScaleKey ≠ toString (5 : Int) ∧
    ((Scale ⟨false⟩ 5 2 envA).outcome = some (.ok ()) ∧
     (Scale ⟨false⟩ 5 2 envA).putBody.isSome = true) :=
  ⟨by decide, by decide,
   scale_no_local_validation ⟨false⟩ 5 2 envA "proj" svcA _ _ tmdA _ emptyAnns taA
     rfl rfl rfl rfl rfl rfl rfl rfl rfl rfl rfl rfl (.inl (by decide)) rfl rfl rfl⟩

/-- Claim C9: the project identifier comes from the metadata environment and
the service name from the K_SERVICE environment value; a resolution failure
is returned before any call to the admin endpoint (no GET attempted), and
when resolution succeeds the attempted GET targets the URL built from the
resolved project and service name. -/
theorem scale_identity_resolution (ctx : Ctx) (min max : Int) (env : Env)
    (e : ScaleErr) (p : String) (hc : env.defaultClient = .ok ()) :
    (env.projectID = .error e →
      Scale ctx min max env = ⟨some (.error e), none, none⟩) ∧
    (env.projectID = .ok p → env.newGetRequest = .ok () →
      (Scale ctx min max env).getURL = some (runAdminURL p env.kService)) := by
  constructor
  · intro h; simp [Scale, hc, h]
  · intro h hg
    unfold Scale
    simp only [hc, h, hg]
    repeat first
    | rfl
    | split

/-- Claim C9 witness: a project-identity failure is returned with no GET
attempted. -/
def envI : Env :=
  ⟨.ok (), .error .identity, "mysvc", .ok (), .ok (), .ok svcA, .ok (), .ok (), .ok 200⟩

/-- Claim C9 witness: against `envI` the identity failure surfaces before
any network call. -/
theorem scale_identity_resolution_witness :
    envI.projectID = .error .identity ∧
    Scale ⟨false⟩ 0 1000 envI = ⟨some (.error .identity), none, none⟩ :=
  ⟨rfl, (scale_identity_resolution ⟨false⟩ 0 1000 envI .identity "proj" rfl).1 rfl⟩

/-- Claim C10: the mutation step guards neither metadata map: on the
mutation path, a decoded description missing the top-level metadata object,
its map, or the template metadata map faults (nil dereference or nil-map
write) instead of returning an error, and never reaches the PUT. -/
theorem scale_fault_when_malformed (ctx : Ctx) (min max : Int) (env : Env) (p : String)
    (svc : Service)
    (hc : env.defaultClient = .ok ()) (hp : env.projectID = .ok p)
    (hg : env.newGetRequest = .ok ()) (hx : ctx.cancelled = false)
    (hdo : env.doGet = .ok ()) (hdec : env.decodeSvc = .ok svc)
    (hdiff : tmplAnn svc minScaleKey ≠ toString min ∨
             tmplAnn svc maxScaleKey ≠ toString max)
    (hwf : wellFormedB svc = false) :
    (Scale ctx min max env).outcome = none ∧
    (Scale ctx min max env).putBody = none := by
  rcases h1 : svc.spec with _ | sp
  · simp [Scale, hc, hp, hg, hx, hdo, hdec, h1]
  rcases h2 : sp.template with _ | tpl
  · simp [Scale, hc, hp, hg, hx, hdo, hdec, h1, h2]
  rcases h3 : tpl.metadata with _ | tmd
  · simp [Scale, hc, hp, hg, hx, hdo, hdec, h1, h2, h3]
  have hacc : ∀ k, tmplAnn svc k = annLookup tmd.anns k := by
    intro k; simp [tmplAnn, tmplMeta, h1, h2, h3]
  rw [hacc, hacc] at hdiff
  have hcond : (annLookup tmd.anns minScaleKey == toString min &&
      annLookup tmd.anns maxScaleKey == toString max) = false := by
    rcases hdiff with h | h <;> simp [h]
  rcases hm : svc.metadata with _ | md
  · simp [Scale, hc, hp, hg, hx, hdo, hdec, h1, h2, h3, hm, hcond]
  rcases hma : md.anns with _ | topAnns
  · simp [Scale, hc, hp, hg, hx, hdo, hdec, h1, h2, h3, hm, hma, hcond]
  rcases hta : tmd.anns with _ | ta
  · have hnc : ¬(annLookup (none : Option AnnMap) minScaleKey = toString min ∧
        annLookup (none : Option AnnMap) maxScaleKey = toString max) := by
      rw [hta] at hdiff
      tauto
    simp [Scale, hc, hp, hg, hx, hdo, hdec, h1, h2, h3, hm, hma, hta, hnc]
  · exfalso
    rw [wellFormedB] at hwf
    simp [tmplMeta, h1, h2, h3, hm, hma, hta] at hwf

/-- Fixture for Claim C10: full pointer chain but the template metadata
map is nil (as decoded from JSON lacking the template annotation object). -/
def svcW : Service :=
  ⟨some ⟨"mysvc", some emptyAnns, "md-extra"⟩,
   some ⟨some ⟨some ⟨"rev-001", none, "tmd-extra"⟩, "tpl-extra"⟩, "sp-extra"⟩,
   "svc-extra"⟩

/-- Oracle whose GET decodes to `svcW`, everything else succeeding. -/
def envW : Env :=
  ⟨.ok (), .ok "proj", "mysvc", .ok (), .ok (), .ok svcW, .ok (), .ok (), .ok 200⟩

/-- Claim C10 witness: requesting min 1 against `svcW` (nil template map,
current reads "" ≠ "1") faults instead of returning, and no PUT happens. -/
theorem scale_fault_when_malformed_witness :
    wellFormedB svcW = false ∧
    tmplAnn svcW minScaleKey ≠ toString (1 : Int) ∧
    ((Scale ⟨false⟩ 1 1000 envW).outcome = none ∧
     (Scale ⟨false⟩ 1 1000 envW).putBody = none) :=
  ⟨by decide, by decide,
   scale_fault_when_malformed ⟨false⟩ 1 1000 envW "proj" svcW
     rfl rfl rfl rfl rfl rfl (.inl (by decide)) (by decide)⟩

end RunScaler
